import Mathlib

/-!
Shallow embedding of the board-game e-commerce storefront
(`src/app/services/cart.ts`, `src/app/services/auth.ts`,
`src/app/services/order.ts` and the model interfaces), together with
proofs settling the specification claims about the cart reducer, the
authentication service and the order recorder.

Conventions of the embedding:
* JavaScript numbers holding integer currency units, ids and quantities
  become `Int`.
* Methods that read the ambient environment (`Date.now()`,
  `Math.random()`, `crypto.randomUUID()`) take that environmental input
  as an explicit parameter.
* `localStorage`-backed state becomes an explicit state record threaded
  through each operation; a mutating method returns the pair
  (result, new state).
-/

namespace Storefront

/-- Embedding of `models/product.interface.ts`: immutable catalog datum. -/
structure Product where
  id : Int
  name : String
  description : String
  price : Int
  image : String
  categoryId : Int
deriving Repr, DecidableEq

/-- Embedding of `models/cart-item.interface.ts`: a product snapshot paired
with a quantity. -/
structure CartItem where
  product : Product
  quantity : Int
deriving Repr, DecidableEq

/-- Concrete catalog product shaped like the `mock-data` entries, used
to instantiate witnesses. -/
def demoProduct (pid price : Int) : Product :=
  { id := pid, name := "Catan", description := "demo", price := price,
    image := "catan.jpg", categoryId := 1 }

namespace Cart

/-- The cart state: the `cartItems` signal of the `Cart` service
(`services/cart.ts`), an ordered list of line items. -/
abbrev CartState := List CartItem

/-- Embedding of the `totalItems` computed:
`reduce((total, item) => total + item.quantity, 0)`. -/
def totalItems (items : CartState) : Int :=
  items.foldl (fun total item => total + item.quantity) 0

/-- Embedding of the `subtotal` computed:
`reduce((total, item) => total + item.product.price * item.quantity, 0)`. -/
def subtotal (items : CartState) : Int :=
  items.foldl (fun total item => total + item.product.price * item.quantity) 0

/-- Embedding of the `total` computed: `computed(() => this.subtotal())`. -/
def total (items : CartState) : Int :=
  subtotal items

/-- Helper embedding the effect of
`updatedItems[existingItemIndex].quantity += quantity` after
`findIndex((item) => item.product.id === product.id)`: increment the
quantity of the first line item whose product id matches. -/
def addQtyToFirst (productId : Int) (quantity : Int) : List CartItem → List CartItem
  | [] => []
  | item :: rest =>
    if item.product.id = productId then
      { item with quantity := item.quantity + quantity } :: rest
    else
      item :: addQtyToFirst productId quantity rest

/-- Embedding of `Cart.addToCart(product, quantity)`: if a line item with
the same product id exists (`findIndex > -1`), add `quantity` to that
item; otherwise append a new line item `{ product, quantity }`. -/
def addToCart (items : CartState) (product : Product) (quantity : Int) : CartState :=
  if items.any (fun item => item.product.id == product.id) then
    addQtyToFirst product.id quantity items
  else
    items ++ [{ product := product, quantity := quantity }]

/-- Embedding of `Cart.removeFromCart(productId)`:
`filter((item) => item.product.id !== productId)`. -/
def removeFromCart (items : CartState) (productId : Int) : CartState :=
  items.filter (fun item => item.product.id != productId)

/-- Embedding of `Cart.updateQuantity(productId, quantity)`: when
`quantity <= 0` delegate to `removeFromCart`; otherwise map every line
item with the given product id to one with the new quantity. -/
def updateQuantity (items : CartState) (productId : Int) (quantity : Int) : CartState :=
  if quantity ≤ 0 then
    removeFromCart items productId
  else
    items.map (fun item =>
      if item.product.id == productId then { item with quantity := quantity } else item)

/-- Embedding of `Cart.clearCart()`: `this.cartItems.set([])`. -/
def clearCart (_items : CartState) : CartState :=
  []

/-- Embedding of `Cart.getShippingCost()`:
`this.subtotal() >= 50000 ? 0 : 5000`. -/
def getShippingCost (items : CartState) : Int :=
  if subtotal items ≥ 50000 then 0 else 5000

/-- Embedding of `Cart.getFinalTotal()`:
`this.subtotal() + this.getShippingCost()`. -/
def getFinalTotal (items : CartState) : Int :=
  subtotal items + getShippingCost items

/-- One public mutation of the `Cart` service. -/
inductive CartOp where
  | add (product : Product) (quantity : Int)
  | update (productId : Int) (quantity : Int)
  | remove (productId : Int)
  | clear
deriving Repr, DecidableEq

/-- Apply one cart mutation to a cart state. -/
def applyOp (items : CartState) : CartOp → CartState
  | .add product quantity => addToCart items product quantity
  | .update productId quantity => updateQuantity items productId quantity
  | .remove productId => removeFromCart items productId
  | .clear => clearCart items

/-- Run a sequence of cart mutations starting from the empty cart (the
initial `signal<CartItem[]>([])`). -/
def runOps (ops : List CartOp) : CartState :=
  ops.foldl applyOp []

/-- Observer: the quantity stored for a product id (0 when the id has no
line item); used to state the claims about per-product quantities. -/
def qtyOf (items : CartState) (productId : Int) : Int :=
  match items.find? (fun item => item.product.id == productId) with
  | some item => item.quantity
  | none => 0

/-- Observer: number of line items carrying the given product id. -/
def lineCount (items : CartState) (productId : Int) : Nat :=
  items.countP (fun item => item.product.id == productId)

/-- The cart data-model invariant: at most one line item per distinct
product id, and every stored quantity is at least 1. -/
def ValidCart (items : CartState) : Prop :=
  (items.map (fun item => item.product.id)).Nodup ∧
    ∀ item ∈ items, 1 ≤ item.quantity

/-- Whether a cart operation is an `addToCart` call with a positive
quantity argument, or any other operation. -/
def posAdd : CartOp → Bool
  | .add _ quantity => decide (0 < quantity)
  | _ => true

/-- An operation sequence in which every `addToCart` call passes a
positive quantity (the claim restricts `addToCart` to positive
quantity arguments). -/
def PositiveAdds (ops : List CartOp) : Prop :=
  ∀ op ∈ ops, posAdd op = true

/-- Concrete cart whose subtotal is exactly the free-shipping threshold. -/
def cartFree : CartState :=
  [{ product := demoProduct 1 50000, quantity := 1 }]

/-- Concrete cart whose subtotal is below the free-shipping threshold. -/
def cartPaid : CartState :=
  [{ product := demoProduct 2 10000, quantity := 2 }]

end Cart

/-- Embedding of `models/user.interface.ts` `User`. The optional
`comentarios` field becomes `Option String`. -/
structure User where
  id : String
  nombre : String
  usuario : String
  email : String
  password : String
  fechaNacimiento : String
  comentarios : Option String
  fechaRegistro : String
deriving Repr, DecidableEq

/-- Embedding of `models/user.interface.ts` `RegisterData`. -/
structure RegisterData where
  nombre : String
  usuario : String
  email : String
  password : String
  fechaNacimiento : String
  comentarios : Option String
deriving Repr, DecidableEq

/-- Embedding of `models/user.interface.ts` `LoginCredentials`. -/
structure LoginCredentials where
  emailOrUsername : String
  password : String
deriving Repr, DecidableEq

/-- Embedding of TypeScript `Partial<User>` as passed to
`updateProfile`: an absent key is `none`. `id` and `fechaRegistro` are
never read from the partial by the source (they are overridden), so only
the remaining fields are modelled. -/
structure UserPartial where
  nombre : Option String
  usuario : Option String
  email : Option String
  password : Option String
  fechaNacimiento : Option String
  comentarios : Option String
deriving Repr, DecidableEq

/-- Embedding of the record stored under `ww_recovery_code` by
`sendVerificationCode`: `{ email, code, timestamp, expires }` with the
timestamps in epoch milliseconds. -/
structure RecoveryData where
  email : String
  code : String
  timestamp : Int
  expires : Int
deriving Repr, DecidableEq

/-- Embedding of `String.prototype.toLowerCase()` (ASCII case folding,
which covers the comparisons the service performs): lower-case every
character of the string. -/
def jsToLower (s : String) : String :=
  String.mk (s.data.map Char.toLower)

/-- JavaScript truthiness of a string: falsy exactly when empty. -/
def jsTruthy (s : String) : Bool :=
  s != ""

namespace Auth

/-- The `AuthService` state (`services/auth.ts`): the `ww_users`
directory, the `ww_current_user` session, the `ww_admin_session` flag
and the `ww_recovery_code` record. -/
structure AuthState where
  users : List User
  currentUser : Option User
  adminSession : Bool
  recovery : Option RecoveryData
deriving Repr, DecidableEq

/-- The empty `AuthService` state: no users, no sessions, no recovery
request. -/
def initialState : AuthState :=
  { users := [], currentUser := none, adminSession := false, recovery := none }

/-- Result shape `{ success, message, user? }` returned by `register`
and `login`. -/
structure UserResult where
  success : Bool
  message : String
  user : Option User
deriving Repr, DecidableEq

/-- Result shape `{ success, message }` returned by `updateProfile`,
`verifyRecoveryCode` and `resetPassword`. -/
structure MsgResult where
  success : Bool
  message : String
deriving Repr, DecidableEq

/-- Embedding of `AuthService.register(data)`. The environmental inputs
of `generateUserId()` and `new Date().toISOString()` are passed in as
`freshId` and `nowIso`. Returns the `{ success, message, user? }`
result and the successor state. -/
def register (s : AuthState) (data : RegisterData) (freshId : String) (nowIso : String) :
    UserResult × AuthState :=
  if s.users.any (fun u => jsToLower u.email == jsToLower data.email) then
    ({ success := false, message := "El email ya está registrado", user := none }, s)
  else if s.users.any (fun u => jsToLower u.usuario == jsToLower data.usuario) then
    ({ success := false, message := "El nombre de usuario ya está en uso", user := none }, s)
  else
    let newUser : User :=
      { id := freshId
        nombre := data.nombre
        usuario := data.usuario
        email := data.email
        password := data.password
        fechaNacimiento := data.fechaNacimiento
        comentarios := data.comentarios
        fechaRegistro := nowIso }
    ({ success := true, message := "Usuario registrado exitosamente", user := some newUser },
      { s with users := s.users ++ [newUser], currentUser := some newUser })

/-- The predicate `login` feeds to `users.find(...)`: the identifier
matches the email or the handle case-insensitively, and the password
matches exactly. -/
def loginMatch (credentials : LoginCredentials) (u : User) : Bool :=
  (jsToLower u.email == jsToLower credentials.emailOrUsername ||
      jsToLower u.usuario == jsToLower credentials.emailOrUsername) &&
    u.password == credentials.password

/-- Embedding of `AuthService.login(credentials)`. -/
def login (s : AuthState) (credentials : LoginCredentials) : UserResult × AuthState :=
  match s.users.find? (loginMatch credentials) with
  | none => ({ success := false, message := "Credenciales incorrectas", user := none }, s)
  | some user =>
    ({ success := true, message := "Inicio de sesión exitoso", user := some user },
      { s with currentUser := some user })

/-- Embedding of the merge in `updateProfile`:
`{ ...currentUser, ...updatedData, id: currentUser.id, fechaRegistro:
currentUser.fechaRegistro, password: updatedData.password ||
currentUser.password }`. A `none` field of the partial leaves the
current value; the `||` makes an empty-string password fall back to the
stored one. -/
def mergeUser (cur : User) (upd : UserPartial) : User :=
  { id := cur.id
    nombre := upd.nombre.getD cur.nombre
    usuario := upd.usuario.getD cur.usuario
    email := upd.email.getD cur.email
    password :=
      match upd.password with
      | some p => if jsTruthy p then p else cur.password
      | none => cur.password
    fechaNacimiento := upd.fechaNacimiento.getD cur.fechaNacimiento
    comentarios :=
      match upd.comentarios with
      | some c => some c
      | none => cur.comentarios
    fechaRegistro := cur.fechaRegistro }

/-- The guard `updatedData.email && updatedData.email !==
currentUser.email` of `updateProfile` (JS truthiness on the string). -/
def changedField (newVal : Option String) (curVal : String) : Bool :=
  match newVal with
  | some v => jsTruthy v && v != curVal
  | none => false

/-- Embedding of `AuthService.updateProfile(updatedData)`. -/
def updateProfile (s : AuthState) (upd : UserPartial) : MsgResult × AuthState :=
  match s.currentUser with
  | none => ({ success := false, message := "No hay sesión activa" }, s)
  | some cur =>
    match s.users.findIdx? (fun u => u.id == cur.id) with
    | none => ({ success := false, message := "Usuario no encontrado" }, s)
    | some userIndex =>
      if changedField upd.email cur.email &&
          s.users.any (fun u =>
            u.id != cur.id && jsToLower u.email == jsToLower (upd.email.getD "")) then
        ({ success := false, message := "El email ya está en uso" }, s)
      else if changedField upd.usuario cur.usuario &&
          s.users.any (fun u =>
            u.id != cur.id && jsToLower u.usuario == jsToLower (upd.usuario.getD "")) then
        ({ success := false, message := "El nombre de usuario ya está en uso" }, s)
      else
        let updatedUser := mergeUser cur upd
        ({ success := true, message := "Perfil actualizado exitosamente" },
          { s with users := s.users.set userIndex updatedUser, currentUser := some updatedUser })

/-- Embedding of `AuthService.checkEmailExists(email)` reduced to its
boolean: `users.find((u) => u.email.toLowerCase() ===
email.toLowerCase())` is defined. -/
def emailExists (s : AuthState) (email : String) : Bool :=
  (s.users.find? (fun u => jsToLower u.email == jsToLower email)).isSome

/-- Embedding of `AuthService.sendVerificationCode(email)`. The random
output of `generateVerificationCode()` and `Date.now()` are passed in
as `code` and `now`. On success stores
`{ email: email.toLowerCase(), code, timestamp: now,
expires: now + 10*60*1000 }` under `ww_recovery_code`. -/
def sendVerificationCode (s : AuthState) (email : String) (code : String) (now : Int) :
    MsgResult × AuthState :=
  if emailExists s email then
    let recoveryData : RecoveryData :=
      { email := jsToLower email, code := code, timestamp := now,
        expires := now + 10 * 60 * 1000 }
    ({ success := true, message := "Código de verificación enviado" },
      { s with recovery := some recoveryData })
  else
    ({ success := false, message := "No existe una cuenta con este email" }, s)

/-- Embedding of `AuthService.verifyRecoveryCode(email, code)`;
`Date.now()` is passed in as `now`. -/
def verifyRecoveryCode (s : AuthState) (email : String) (code : String) (now : Int) :
    MsgResult × AuthState :=
  match s.recovery with
  | none => ({ success := false, message := "No hay código de recuperación activo" }, s)
  | some recoveryData =>
    if now > recoveryData.expires then
      ({ success := false, message := "El código ha expirado. Solicita uno nuevo" },
        { s with recovery := none })
    else if jsToLower recoveryData.email == jsToLower email && recoveryData.code == code then
      ({ success := true, message := "Código verificado correctamente" }, s)
    else
      ({ success := false, message := "Código incorrecto" }, s)

/-- The identifier half of the `login` predicate: the supplied
identifier matches the email or the handle case-insensitively. -/
def identMatches (identifier : String) (u : User) : Bool :=
  jsToLower u.email == jsToLower identifier || jsToLower u.usuario == jsToLower identifier

/-- Concrete registered user for witnesses. -/
def demoUser : User :=
  { id := "user_1_aaa", nombre := "Ana", usuario := "ana", email := "a@x.com",
    password := "Pass123", fechaNacimiento := "1990-01-15", comentarios := none,
    fechaRegistro := "2025-01-01T00:00:00.000Z" }

/-- Concrete directory holding `demoUser`, with no active sessions. -/
def demoDirectory : AuthState :=
  { users := [demoUser], currentUser := none, adminSession := false, recovery := none }

/-- Concrete state in which `demoUser` is registered and logged in. -/
def demoSession : AuthState :=
  { users := [demoUser], currentUser := some demoUser, adminSession := false, recovery := none }

/-- Concrete outstanding recovery request: issued at epoch 0, expiring
at 600000 (10 minutes later). -/
def demoRecovery : RecoveryData :=
  { email := "a@x.com", code := "123456", timestamp := 0, expires := 600000 }

/-- Concrete state holding `demoRecovery` as the outstanding request. -/
def demoRecoveryState : AuthState :=
  { users := [demoUser], currentUser := none, adminSession := false,
    recovery := some demoRecovery }

/-- Concrete profile update supplying an empty-string password and
nothing else. -/
def emptyPasswordUpdate : UserPartial :=
  { nombre := none, usuario := none, email := none, password := some "",
    fechaNacimiento := none, comentarios := none }

/-- Concrete profile update supplying a non-empty password. -/
def newPasswordUpdate : UserPartial :=
  { nombre := none, usuario := none, email := none, password := some "Nueva123",
    fechaNacimiento := none, comentarios := none }

end Auth

/-- A JavaScript value holding a date: either a live `Date` object
(identified by its epoch-millisecond value) or, after a JSON round
trip, its ISO-8601 string serialization. -/
inductive JsDate where
  | obj (ms : Int)
  | iso (s : String)
deriving Repr, DecidableEq

/-- Left-pad the decimal rendering of a natural number with zeros. -/
def padNat (width : Nat) (n : Nat) : String :=
  let s := toString n
  String.mk (List.replicate (width - s.length) '0') ++ s

/-- Proleptic-Gregorian calendar date from a count of days since
1970-01-01 (the civil-from-days algorithm used by ECMAScript date
libraries): returns (year, month, day). -/
def civilFromDays (z0 : Int) : Int × Int × Int :=
  let z := z0 + 719468
  let era : Int := z.fdiv 146097
  let doe : Int := z - era * 146097
  let yoe : Int := (doe - doe.fdiv 1460 + doe.fdiv 36524 - doe.fdiv 146096).fdiv 365
  let y : Int := yoe + era * 400
  let doy : Int := doe - (365 * yoe + yoe.fdiv 4 - yoe.fdiv 100)
  let mp : Int := (5 * doy + 2).fdiv 153
  let d : Int := doy - (153 * mp + 2).fdiv 5 + 1
  let m : Int := mp + (if mp < 10 then 3 else -9)
  (y + (if m ≤ 2 then 1 else 0), m, d)

/-- Embedding of `Date.prototype.toISOString()` for dates whose year
lies in 0..9999 (every date this storefront manipulates):
`YYYY-MM-DDTHH:mm:ss.sssZ` from epoch milliseconds. -/
def toISOString (ms : Int) : String :=
  let days := ms.fdiv 86400000
  let msod := (ms - days * 86400000).toNat
  let ymd := civilFromDays days
  padNat 4 ymd.1.toNat ++ "-" ++ padNat 2 ymd.2.1.toNat ++ "-" ++ padNat 2 ymd.2.2.toNat ++
    "T" ++ padNat 2 (msod / 3600000) ++ ":" ++ padNat 2 (msod % 3600000 / 60000) ++ ":" ++
    padNat 2 (msod % 60000 / 1000) ++ "." ++ padNat 3 (msod % 1000) ++ "Z"

/-- ECMAScript JSON semantics for a date value: `JSON.stringify` turns a
`Date` object into its `toISOString()` string, and `JSON.parse` leaves
that string a string. -/
def jsonOfDate : JsDate → JsDate
  | .obj ms => .iso (toISOString ms)
  | .iso s => .iso s

/-- Embedding of the optional `customerInfo` shape of
`models/order.interface.ts`. -/
structure CustomerInfo where
  name : String
  email : String
  phone : String
deriving Repr, DecidableEq

/-- Embedding of the optional `shippingAddress` shape of
`models/order.interface.ts`. -/
structure ShippingAddress where
  street : String
  city : String
  region : String
deriving Repr, DecidableEq

/-- Embedding of `models/order.interface.ts` `Order`. The `status`
string-literal union becomes a `String`. -/
structure Order where
  id : String
  orderNumber : String
  date : JsDate
  items : List CartItem
  subtotal : Int
  tax : Int
  shipping : Int
  total : Int
  customerInfo : Option CustomerInfo
  shippingAddress : Option ShippingAddress
  status : String
deriving Repr, DecidableEq

/-- The JSON round trip `JSON.parse(JSON.stringify(order))` performed
between `saveOrderToStorage` and `getOrderByNumber`. Every field of
`Order` is JSON-stable (strings, integer-valued numbers, records and
arrays of them, absent optional fields) except `date`, whose `Date`
object serializes to its ISO string. -/
def jsonRoundTripOrder (o : Order) : Order :=
  { o with date := jsonOfDate o.date }

namespace OrderSvc

/-- The `localStorage` slice owned by `OrderService`
(`services/order.ts`): the `order_<orderNumber>` entries (most recent
write first, as an association list) and the `lastOrder` pointer. -/
structure OrderStore where
  orders : List (String × Order)
  lastOrder : Option String
deriving Repr, DecidableEq

/-- The store before any order was placed. -/
def emptyStore : OrderStore :=
  { orders := [], lastOrder := none }

/-- Embedding of `OrderService.generateOrderNumber()`:
`WW-${year}-${random}` where `year = new Date().getFullYear()` and
`random = Math.floor(100000 + Math.random() * 900000)` (so the source
always passes `100000 ≤ random ≤ 999999`); both environmental inputs
are parameters here. -/
def generateOrderNumber (year : Int) (random : Int) : String :=
  "WW-" ++ toString year ++ "-" ++ toString random

/-- Embedding of `OrderService.createOrder(items, subtotal, tax,
shipping, total)` composed with `saveOrderToStorage`. The environmental
inputs `crypto.randomUUID()`, `new Date()` and the two inputs of
`generateOrderNumber` are the parameters `uuid`, `nowMs`, `year`,
`random`. `localStorage.setItem` is modelled by prepending the
serialized entry (reads take the most recent write). -/
def createOrder (store : OrderStore) (uuid : String) (nowMs : Int) (year : Int) (random : Int)
    (items : List CartItem) (subtotal : Int) (tax : Int) (shipping : Int) (total : Int) :
    Order × OrderStore :=
  let orderNumber := generateOrderNumber year random
  let order : Order :=
    { id := uuid
      orderNumber := orderNumber
      date := JsDate.obj nowMs
      items := items
      subtotal := subtotal
      tax := tax
      shipping := shipping
      total := total
      customerInfo := none
      shippingAddress := none
      status := "confirmed" }
  (order,
    { orders := (orderNumber, jsonRoundTripOrder order) :: store.orders,
      lastOrder := some orderNumber })

/-- Embedding of `OrderService.getOrderByNumber(orderNumber)`: read and
parse `localStorage.getItem('order_' + orderNumber)`, or `null`. -/
def getOrderByNumber (store : OrderStore) (orderNumber : String) : Option Order :=
  (store.orders.find? (fun entry => entry.1 == orderNumber)).map (fun entry => entry.2)

/-- Embedding of `OrderService.getLastOrder()`: resolve the `lastOrder`
pointer through `getOrderByNumber`, or `null`. -/
def getLastOrder (store : OrderStore) : Option Order :=
  match store.lastOrder with
  | some lastOrderNumber => getOrderByNumber store lastOrderNumber
  | none => none

/-- Concrete `createOrder` run for the order claims: a cart of two
units of product 1 checked out on 2025-12-12 with fixed environmental
inputs. -/
def demoCreate : Order × OrderStore :=
  createOrder emptyStore "f47ac10b-58cc-4372-a567-0e02b2c3d479" 1765497600123 2025 123456
    [{ product := demoProduct 1 10000, quantity := 2 }] 20000 0 5000 25000

/-- The Order returned by the concrete `demoCreate` run. -/
def demoOrder : Order :=
  demoCreate.1

/-- The store state after the concrete `demoCreate` run. -/
def demoStore : OrderStore :=
  demoCreate.2

end OrderSvc

/-! ### Cart lemmas -/

namespace Cart

theorem subtotal_foldl_aux (items : List CartItem) (a : Int) :
    items.foldl (fun total item => total + item.product.price * item.quantity) a =
      a + (items.map (fun item => item.product.price * item.quantity)).sum := by
  induction items generalizing a with
  | nil => simp
  | cons head tail ih => simp [ih, add_assoc]

/-- The incrementally exposed `subtotal` computed equals the reference
recomputation: the sum of price × quantity over the line items. -/
theorem subtotal_eq_sum (items : CartState) :
    subtotal items = (items.map (fun item => item.product.price * item.quantity)).sum := by
  simpa [subtotal] using subtotal_foldl_aux items 0

theorem totalItems_foldl_aux (items : List CartItem) (a : Int) :
    items.foldl (fun total item => total + item.quantity) a =
      a + (items.map (fun item => item.quantity)).sum := by
  induction items generalizing a with
  | nil => simp
  | cons head tail ih => simp [ih, add_assoc]

/-- The `totalItems` computed equals the sum of the stored quantities. -/
theorem totalItems_eq_sum (items : CartState) :
    totalItems items = (items.map (fun item => item.quantity)).sum := by
  simpa [totalItems] using totalItems_foldl_aux items 0

theorem lineCount_addQtyToFirst (productId quantity : Int) (items : List CartItem)
    (pid : Int) :
    lineCount (addQtyToFirst productId quantity items) pid = lineCount items pid := by
  induction items with
  | nil => rfl
  | cons head tail ih =>
    by_cases h : head.product.id = productId
    · simp [addQtyToFirst, h, lineCount, List.countP_cons]
    · simp only [addQtyToFirst, if_neg h, lineCount, List.countP_cons] at ih ⊢
      omega

theorem qtyOf_cons_of_pos (head : CartItem) (tail : List CartItem) (pid : Int)
    (h : head.product.id = pid) :
    qtyOf (head :: tail) pid = head.quantity := by
  rw [qtyOf, List.find?_cons_of_pos tail (by simpa using h)]

theorem qtyOf_cons_of_neg (head : CartItem) (tail : List CartItem) (pid : Int)
    (h : ¬head.product.id = pid) :
    qtyOf (head :: tail) pid = qtyOf tail pid := by
  rw [qtyOf, List.find?_cons_of_neg tail (by simpa using h), qtyOf]

theorem qtyOf_addQtyToFirst (productId quantity : Int) (items : List CartItem)
    (h : items.any (fun item => item.product.id == productId) = true) :
    qtyOf (addQtyToFirst productId quantity items) productId =
      qtyOf items productId + quantity := by
  induction items with
  | nil => simp at h
  | cons head tail ih =>
    by_cases hh : head.product.id = productId
    · have hstep : addQtyToFirst productId quantity (head :: tail) =
          { head with quantity := head.quantity + quantity } :: tail := by
        simp [addQtyToFirst, hh]
      rw [hstep,
        qtyOf_cons_of_pos { head with quantity := head.quantity + quantity } tail productId hh,
        qtyOf_cons_of_pos head tail productId hh]
    · have hstep : addQtyToFirst productId quantity (head :: tail) =
          head :: addQtyToFirst productId quantity tail := by
        simp [addQtyToFirst, hh]
      have htail : tail.any (fun item => item.product.id == productId) = true := by
        simpa [List.any_cons, hh] using h
      rw [hstep, qtyOf_cons_of_neg _ _ _ hh, qtyOf_cons_of_neg _ _ _ hh]
      exact ih htail

theorem qtyOf_of_absent (items : List CartItem) (pid : Int)
    (h : items.any (fun item => item.product.id == pid) = false) :
    qtyOf items pid = 0 := by
  have : items.find? (fun item => item.product.id == pid) = none := by
    rw [List.find?_eq_none]
    intro x hx
    exact (List.any_eq_false.mp h) x hx
  simp [qtyOf, this]

theorem any_iff_lineCount_pos (items : List CartItem) (pid : Int) :
    items.any (fun item => item.product.id == pid) = true ↔ 0 < lineCount items pid := by
  rw [List.any_eq_true, lineCount, List.countP_pos_iff]

theorem qtyOf_addToCart (items : CartState) (p : Product) (q : Int) :
    qtyOf (addToCart items p q) p.id = qtyOf items p.id + q := by
  cases hmem : items.any (fun item => item.product.id == p.id) with
  | true =>
    rw [addToCart, if_pos hmem]
    exact qtyOf_addQtyToFirst p.id q items hmem
  | false =>
    have h0 : qtyOf items p.id = 0 := qtyOf_of_absent items p.id hmem
    have hfn : items.find? (fun item => item.product.id == p.id) = none :=
      List.find?_eq_none.mpr (List.any_eq_false.mp hmem)
    rw [addToCart, if_neg (by simp [hmem]), qtyOf, List.find?_append, hfn, h0]
    simp

theorem lineCount_addToCart_of_le_one (items : CartState) (p : Product) (q : Int)
    (h : lineCount items p.id ≤ 1) :
    lineCount (addToCart items p q) p.id = 1 := by
  cases hmem : items.any (fun item => item.product.id == p.id) with
  | true =>
    have hpos : 0 < lineCount items p.id := (any_iff_lineCount_pos items p.id).mp hmem
    rw [addToCart, if_pos hmem, lineCount_addQtyToFirst]
    omega
  | false =>
    have hzero : lineCount items p.id = 0 :=
      List.countP_eq_zero.mpr (List.any_eq_false.mp hmem)
    rw [addToCart, if_neg (by simp [hmem]), lineCount, List.countP_append]
    rw [lineCount] at hzero
    simp [hzero, List.countP_cons]

theorem map_product_addQtyToFirst (productId quantity : Int) (items : List CartItem) :
    (addQtyToFirst productId quantity items).map (fun item => item.product) =
      items.map (fun item => item.product) := by
  induction items with
  | nil => rfl
  | cons head tail ih =>
    by_cases hh : head.product.id = productId
    · simp [addQtyToFirst, hh]
    · simp [addQtyToFirst, hh, ih]

theorem quantity_lb_addQtyToFirst (productId quantity : Int) (items : List CartItem)
    (hq : 0 < quantity) (hall : ∀ item ∈ items, 1 ≤ item.quantity) :
    ∀ item ∈ addQtyToFirst productId quantity items, 1 ≤ item.quantity := by
  induction items with
  | nil => intro item hmem; simp [addQtyToFirst] at hmem
  | cons head tail ih =>
    intro item hmem
    by_cases hh : head.product.id = productId
    · rw [show addQtyToFirst productId quantity (head :: tail) =
          { head with quantity := head.quantity + quantity } :: tail by
            simp [addQtyToFirst, hh]] at hmem
      rcases List.mem_cons.mp hmem with hhead | htail
      · have : 1 ≤ head.quantity := hall head (List.mem_cons_self head tail)
        rw [hhead]
        dsimp only
        omega
      · exact hall item (List.mem_cons_of_mem head htail)
    · rw [show addQtyToFirst productId quantity (head :: tail) =
          head :: addQtyToFirst productId quantity tail by simp [addQtyToFirst, hh]] at hmem
      rcases List.mem_cons.mp hmem with hhead | htail
      · rw [hhead]; exact hall head (List.mem_cons_self head tail)
      · exact ih (fun x hx => hall x (List.mem_cons_of_mem head hx)) item htail

theorem productIds_eq_of_product_map_eq (l1 l2 : List CartItem)
    (h : l1.map (fun item => item.product) = l2.map (fun item => item.product)) :
    l1.map (fun item => item.product.id) = l2.map (fun item => item.product.id) := by
  have h1 : l1.map (fun item => item.product.id) =
      (l1.map (fun item => item.product)).map (fun product => product.id) := by
    rw [List.map_map]; rfl
  have h2 : l2.map (fun item => item.product.id) =
      (l2.map (fun item => item.product)).map (fun product => product.id) := by
    rw [List.map_map]; rfl
  rw [h1, h2, h]

theorem validCart_addToCart (items : CartState) (p : Product) (q : Int)
    (hq : 0 < q) (h : ValidCart items) : ValidCart (addToCart items p q) := by
  obtain ⟨hnodup, hqty⟩ := h
  cases hmem : items.any (fun item => item.product.id == p.id) with
  | true =>
    rw [addToCart, if_pos hmem]
    refine ⟨?_, quantity_lb_addQtyToFirst p.id q items hq hqty⟩
    rw [productIds_eq_of_product_map_eq _ items (map_product_addQtyToFirst p.id q items)]
    exact hnodup
  | false =>
    rw [addToCart, if_neg (by simp [hmem])]
    constructor
    · rw [List.map_append]
      simp only [List.map_cons, List.map_nil]
      rw [List.nodup_append]
      refine ⟨hnodup, List.nodup_singleton _, ?_⟩
      rw [List.disjoint_singleton]
      intro hcontra
      rcases List.mem_map.mp hcontra with ⟨item, hitem, hid⟩
      have := List.any_eq_false.mp hmem item hitem
      simp only [beq_iff_eq] at this
      exact this (by simpa using hid)
    · intro item hitem
      rcases List.mem_append.mp hitem with hold | hnew
      · exact hqty item hold
      · have : item = { product := p, quantity := q } := by simpa using hnew
        rw [this]
        dsimp only
        omega

theorem validCart_removeFromCart (items : CartState) (pid : Int)
    (h : ValidCart items) : ValidCart (removeFromCart items pid) := by
  obtain ⟨hnodup, hqty⟩ := h
  refine ⟨?_, ?_⟩
  · exact ((List.filter_sublist items).map (fun item => item.product.id)).nodup hnodup
  · intro item hitem
    exact hqty item (List.mem_of_mem_filter hitem)

theorem validCart_updateQuantity (items : CartState) (pid q : Int)
    (h : ValidCart items) : ValidCart (updateQuantity items pid q) := by
  by_cases hq : q ≤ 0
  · rw [updateQuantity, if_pos hq]
    exact validCart_removeFromCart items pid h
  · rw [updateQuantity, if_neg hq]
    obtain ⟨hnodup, hqty⟩ := h
    constructor
    · rw [List.map_map]
      have : items.map ((fun item => item.product.id) ∘ fun item =>
          if item.product.id == pid then { item with quantity := q } else item) =
          items.map (fun item => item.product.id) := by
        apply List.map_congr_left
        intro item _
        by_cases hid : item.product.id = pid
        · simp [hid]
        · simp [hid]
      rw [this]
      exact hnodup
    · intro item hitem
      rcases List.mem_map.mp hitem with ⟨orig, horig, heq⟩
      by_cases hid : orig.product.id = pid
      · rw [← heq]
        simp [hid]
        omega
      · rw [← heq]
        simp only [beq_iff_eq, if_neg hid]
        exact hqty orig horig

theorem validCart_applyOp (items : CartState) (op : CartOp)
    (hpos : posAdd op = true) (h : ValidCart items) : ValidCart (applyOp items op) := by
  cases op with
  | add product quantity =>
    have : 0 < quantity := by simpa [posAdd] using hpos
    exact validCart_addToCart items product quantity this h
  | update productId quantity => exact validCart_updateQuantity items productId quantity h
  | remove productId => exact validCart_removeFromCart items productId h
  | clear =>
    exact ⟨by simp [applyOp, clearCart], by intro item hitem; simp [applyOp, clearCart] at hitem⟩

theorem validCart_foldl (ops : List CartOp) (s : CartState)
    (h : ValidCart s) (hpos : ∀ op ∈ ops, posAdd op = true) :
    ValidCart (ops.foldl applyOp s) := by
  induction ops generalizing s with
  | nil => exact h
  | cons op rest ih =>
    rw [List.foldl_cons]
    exact ih (applyOp s op)
      (validCart_applyOp s op (hpos op (List.mem_cons_self op rest)) h)
      (fun o ho => hpos o (List.mem_cons_of_mem op ho))

/-- C1: starting from the empty cart, after every sequence of
`addToCart` / `updateQuantity` / `removeFromCart` / `clearCart` calls,
`subtotal()` equals the reference recomputation — the sum of
price × quantity over the current line items — and `totalItems()`
equals the sum of the quantities: incremental and recomputed values
never drift. -/
theorem cart_no_drift (ops : List CartOp) :
    subtotal (runOps ops) =
      ((runOps ops).map (fun item => item.product.price * item.quantity)).sum ∧
      totalItems (runOps ops) = ((runOps ops).map (fun item => item.quantity)).sum :=
  ⟨subtotal_eq_sum (runOps ops), totalItems_eq_sum (runOps ops)⟩

/-- C2: for every cart state, `getShippingCost()` is 0 when
`subtotal() >= 50000` and 5000 otherwise, a subtotal of exactly 50000
gets free shipping, and `getFinalTotal()` is
`subtotal() + getShippingCost()`. -/
theorem shipping_cost_policy (items : CartState) :
    (subtotal items ≥ 50000 → getShippingCost items = 0) ∧
      (subtotal items < 50000 → getShippingCost items = 5000) ∧
      (subtotal items = 50000 → getShippingCost items = 0) ∧
      getFinalTotal items = subtotal items + getShippingCost items := by
  refine ⟨fun h => ?_, fun h => ?_, fun h => ?_, rfl⟩
  · rw [getShippingCost, if_pos h]
  · rw [getShippingCost, if_neg (by omega)]
  · rw [getShippingCost, if_pos (by omega)]

/-- Witness for C2 at concrete carts: a subtotal of exactly 50000 ships
free, a subtotal of 20000 pays the 5000 flat fee. -/
theorem shipping_cost_policy_witness :
    getShippingCost cartFree = 0 ∧ getShippingCost cartPaid = 5000 :=
  ⟨(shipping_cost_policy cartFree).2.2.1 (by decide),
    (shipping_cost_policy cartPaid).2.1 (by decide)⟩

/-- C3: on a cart satisfying the one-line-item-per-product invariant,
`addToCart(p, q1)` followed by `addToCart(p, q2)` leaves exactly one
line item for `p.id`, whose quantity is the prior quantity plus
`q1 + q2`. -/
theorem addToCart_merges_same_product (items : CartState) (p : Product) (q1 q2 : Int)
    (h : lineCount items p.id ≤ 1) :
    lineCount (addToCart (addToCart items p q1) p q2) p.id = 1 ∧
      qtyOf (addToCart (addToCart items p q1) p q2) p.id = qtyOf items p.id + (q1 + q2) := by
  have h1 : lineCount (addToCart items p q1) p.id = 1 :=
    lineCount_addToCart_of_le_one items p q1 h
  refine ⟨lineCount_addToCart_of_le_one _ p q2 (le_of_eq h1), ?_⟩
  rw [qtyOf_addToCart, qtyOf_addToCart]
  omega

/-- Witness for C3: adding product 1 with quantities 2 then 3 to the
empty cart yields one line item of quantity 5. -/
theorem addToCart_merges_same_product_witness :
    lineCount (addToCart (addToCart [] (demoProduct 1 10000) 2) (demoProduct 1 10000) 3)
        (demoProduct 1 10000).id = 1 ∧
      qtyOf (addToCart (addToCart [] (demoProduct 1 10000) 2) (demoProduct 1 10000) 3)
          (demoProduct 1 10000).id =
        qtyOf [] (demoProduct 1 10000).id + (2 + 3) :=
  addToCart_merges_same_product [] (demoProduct 1 10000) 2 3 (by decide)

/-- C4: every cart state reachable from the empty cart by `addToCart`
with a positive quantity argument, `updateQuantity`, `removeFromCart`
and `clearCart` has at most one line item per distinct product id and
only quantities ≥ 1 (a quantity driven to 0 or below deletes the line
item instead of being stored). -/
theorem reachable_cart_valid (ops : List CartOp) (h : PositiveAdds ops) :
    ValidCart (runOps ops) :=
  validCart_foldl ops [] ⟨by simp, by intro item hitem; simp at hitem⟩ h

/-- Witness for C4 on a concrete sequence: add two units of product 1,
then set its quantity to 0 (which deletes the line item). -/
theorem reachable_cart_valid_witness :
    ValidCart (runOps [CartOp.add (demoProduct 1 10000) 2, CartOp.update 1 0]) :=
  reachable_cart_valid [CartOp.add (demoProduct 1 10000) 2, CartOp.update 1 0]
    (by intro op hop; fin_cases hop <;> decide)

/-- C10: the public `total()` computed equals `subtotal()` exactly and
never includes shipping; on any cart with `0 < subtotal() < 50000`,
`getFinalTotal()` exceeds `total()` by exactly the 5000 flat fee. -/
theorem total_excludes_shipping (items : CartState) :
    total items = subtotal items ∧
      (0 < subtotal items → subtotal items < 50000 →
        getFinalTotal items = total items + 5000) := by
  refine ⟨rfl, fun hpos hlt => ?_⟩
  rw [getFinalTotal, getShippingCost, if_neg (by omega), total]

/-- Witness for C10 at a concrete cart with subtotal 20000. -/
theorem total_excludes_shipping_witness :
    total cartPaid = subtotal cartPaid ∧ getFinalTotal cartPaid = total cartPaid + 5000 :=
  ⟨(total_excludes_shipping cartPaid).1,
    (total_excludes_shipping cartPaid).2 (by decide) (by decide)⟩

end Cart

/-! ### Auth lemmas and claims -/

namespace Auth

/-- The `login` predicate splits into identifier matching and exact
password comparison. -/
theorem loginMatch_eq (credentials : LoginCredentials) (u : User) :
    loginMatch credentials u =
      (identMatches credentials.emailOrUsername u && (u.password == credentials.password)) :=
  rfl

/-- C5: `register` fails with the duplicate-email outcome whenever some
existing user's email matches the new email case-insensitively, leaving
the directory and the session untouched; when it succeeds, the created
user — carrying the freshly generated id and the current timestamp —
is appended to the directory and becomes the current session. -/
theorem register_duplicate_email (s : AuthState) (data : RegisterData)
    (freshId nowIso : String) :
    ((∃ u ∈ s.users, jsToLower u.email = jsToLower data.email) →
        register s data freshId nowIso =
          ({ success := false, message := "El email ya está registrado", user := none }, s)) ∧
      ((register s data freshId nowIso).1.success = true →
        ∃ newUser : User,
          (register s data freshId nowIso).1.user = some newUser ∧
            (register s data freshId nowIso).2.users = s.users ++ [newUser] ∧
            (register s data freshId nowIso).2.currentUser = some newUser ∧
            newUser.id = freshId ∧ newUser.fechaRegistro = nowIso ∧
            newUser.email = data.email) := by
  constructor
  · intro h
    have hany : s.users.any (fun u => jsToLower u.email == jsToLower data.email) = true := by
      rw [List.any_eq_true]
      obtain ⟨u, hu, he⟩ := h
      exact ⟨u, hu, by simpa using he⟩
    rw [register, if_pos hany]
  · intro hsucc
    by_cases hemail : s.users.any (fun u => jsToLower u.email == jsToLower data.email) = true
    · rw [register, if_pos hemail] at hsucc
      simp at hsucc
    · by_cases husr :
          s.users.any (fun u => jsToLower u.usuario == jsToLower data.usuario) = true
      · rw [register, if_neg hemail, if_pos husr] at hsucc
        simp at hsucc
      · simp only [register, if_neg hemail, if_neg husr]
        exact ⟨_, rfl, rfl, rfl, rfl, rfl, rfl⟩

/-- Witness for C5: with "a@x.com" registered, registering "A@X.COM"
fails with the duplicate-email outcome and changes nothing. -/
theorem register_duplicate_email_witness :
    register demoDirectory
        { nombre := "Eva", usuario := "eva", email := "A@X.COM", password := "x",
          fechaNacimiento := "1991-02-02", comentarios := none }
        "user_2_bbb" "2025-03-03T00:00:00.000Z" =
      ({ success := false, message := "El email ya está registrado", user := none },
        demoDirectory) :=
  (register_duplicate_email demoDirectory
      { nombre := "Eva", usuario := "eva", email := "A@X.COM", password := "x",
        fechaNacimiento := "1991-02-02", comentarios := none }
      "user_2_bbb" "2025-03-03T00:00:00.000Z").1
    ⟨demoUser, by decide, by decide⟩

/-- C6: a login whose identifier matches a registered user but whose
password is wrong and a login whose identifier matches no user produce
identical observables: the same generic failure result and an
unchanged state. -/
theorem login_failures_indistinguishable (s : AuthState) (c1 c2 : LoginCredentials)
    (hid1 : ∃ u ∈ s.users, identMatches c1.emailOrUsername u = true)
    (hpw1 : ∀ u ∈ s.users, identMatches c1.emailOrUsername u = true →
      u.password ≠ c1.password)
    (hid2 : ∀ u ∈ s.users, identMatches c2.emailOrUsername u = false) :
    login s c1 = login s c2 ∧
      login s c1 =
        ({ success := false, message := "Credenciales incorrectas", user := none }, s) := by
  have hfind1 : s.users.find? (loginMatch c1) = none := by
    rw [List.find?_eq_none]
    intro u hu hmatch
    rw [loginMatch_eq, Bool.and_eq_true] at hmatch
    exact hpw1 u hu hmatch.1 (by simpa using hmatch.2)
  have hfind2 : s.users.find? (loginMatch c2) = none := by
    rw [List.find?_eq_none]
    intro u hu hmatch
    rw [loginMatch_eq, Bool.and_eq_true] at hmatch
    rw [hid2 u hu] at hmatch
    exact Bool.false_ne_true hmatch.1
  rw [login, login, hfind1, hfind2]
  exact ⟨rfl, rfl⟩

/-- Witness for C6: wrong password for the registered "a@x.com" versus
the unknown identifier "ghost@x.com". -/
theorem login_failures_indistinguishable_witness :
    login demoDirectory { emailOrUsername := "a@x.com", password := "wrong" } =
        login demoDirectory { emailOrUsername := "ghost@x.com", password := "wrong" } ∧
      login demoDirectory { emailOrUsername := "a@x.com", password := "wrong" } =
        ({ success := false, message := "Credenciales incorrectas", user := none },
          demoDirectory) :=
  login_failures_indistinguishable demoDirectory
    { emailOrUsername := "a@x.com", password := "wrong" }
    { emailOrUsername := "ghost@x.com", password := "wrong" }
    ⟨demoUser, by decide, by decide⟩ (by decide) (by decide)

/-- C7 counterexample: with the stored request expiring at 600000,
calling `verifyRecoveryCode` with the matching email and code at
exactly `now = expiresAt = 600000` succeeds, although 600000 is not
strictly before the expiry — the code tests `now > expires`, so the
usability window includes the expiry instant. -/
theorem verify_at_expiry_succeeds :
    (verifyRecoveryCode demoRecoveryState "a@x.com" "123456" 600000).1.success = true ∧
      ¬ (600000 : Int) < demoRecovery.expires := by
  decide

/-- C7 (amended): a stored recovery request is usable up to and
including `expiresAt`: with no stored request, verification fails with
the no-outstanding-request outcome and leaves the state unchanged;
when `now > expiresAt`, it fails with the code-expired outcome and
deletes the stored request; when `now ≤ expiresAt`, it succeeds exactly
for the matching email and code, leaving the state unchanged. -/
theorem verify_recovery_window (s : AuthState) (email code : String) (now : Int) :
    (s.recovery = none →
        verifyRecoveryCode s email code now =
          ({ success := false, message := "No hay código de recuperación activo" }, s)) ∧
      (∀ rd : RecoveryData, s.recovery = some rd → rd.expires < now →
        verifyRecoveryCode s email code now =
          ({ success := false, message := "El código ha expirado. Solicita uno nuevo" },
            { s with recovery := none })) ∧
      (∀ rd : RecoveryData, s.recovery = some rd → now ≤ rd.expires →
        ((verifyRecoveryCode s email code now).1.success = true ↔
          jsToLower rd.email = jsToLower email ∧ rd.code = code)) ∧
      (∀ rd : RecoveryData, s.recovery = some rd → now ≤ rd.expires →
        jsToLower rd.email = jsToLower email → rd.code = code →
        (verifyRecoveryCode s email code now).2 = s) := by
  refine ⟨fun h => ?_, fun rd h hlt => ?_, fun rd h hle => ?_, fun rd h hle he hc => ?_⟩
  · rw [verifyRecoveryCode, h]
  · rw [verifyRecoveryCode, h]
    simp only [gt_iff_lt, hlt, if_true]
  · rw [verifyRecoveryCode, h]
    simp only [gt_iff_lt, if_neg (not_lt.mpr hle)]
    cases hcond : (jsToLower rd.email == jsToLower email && rd.code == code) with
    | true =>
      constructor
      · intro _
        have hparts : (jsToLower rd.email == jsToLower email) = true ∧
            (rd.code == code) = true := by simpa using hcond
        exact ⟨by simpa using hparts.1, by simpa using hparts.2⟩
      · intro _
        simp
    | false =>
      constructor
      · intro hfalse
        simp at hfalse
      · intro hmatch
        have hco : (jsToLower rd.email == jsToLower email && rd.code == code) = true := by
          simp only [Bool.and_eq_true]
          exact ⟨by simpa using hmatch.1, by simpa using hmatch.2⟩
        rw [hcond] at hco
        exact absurd hco Bool.false_ne_true
  · rw [verifyRecoveryCode, h]
    simp only [gt_iff_lt, if_neg (not_lt.mpr hle)]
    cases hcond : (jsToLower rd.email == jsToLower email && rd.code == code) <;> simp

/-- Witness for C7 (amended): one millisecond past the expiry the
request is rejected as expired and deleted; at the expiry instant the
success of verification is equivalent to email and code matching. -/
theorem verify_recovery_window_witness :
    verifyRecoveryCode demoRecoveryState "a@x.com" "123456" 600001 =
        ({ success := false, message := "El código ha expirado. Solicita uno nuevo" },
          { demoRecoveryState with recovery := none }) ∧
      ((verifyRecoveryCode demoRecoveryState "a@x.com" "123456" 600000).1.success = true ↔
        jsToLower demoRecovery.email = jsToLower "a@x.com" ∧
          demoRecovery.code = "123456") :=
  ⟨(verify_recovery_window demoRecoveryState "a@x.com" "123456" 600001).2.1 demoRecovery
      rfl (by decide),
    (verify_recovery_window demoRecoveryState "a@x.com" "123456" 600000).2.2.1 demoRecovery
      rfl (by decide)⟩

/-- C8 counterexample: with `demoUser` (stored password "Pass123")
logged in, `updateProfile` supplying the new password value "" (the
empty string) succeeds, yet the stored password stays "Pass123"
instead of being replaced by the supplied value — the `||` fallback in
the source treats an empty-string password as absent. -/
theorem updateProfile_empty_password_kept :
    (updateProfile demoSession emptyPasswordUpdate).1.success = true ∧
      emptyPasswordUpdate.password = some "" ∧
      (updateProfile demoSession emptyPasswordUpdate).2.users.map (fun u => u.password) =
        ["Pass123"] ∧
      ("Pass123" : String) ≠ "" := by
  decide

/-- C8 (amended): on a successful `updateProfile` with `cur` the
logged-in user found at directory index `idx`, the merged record keeps
the original `id` and `fechaRegistro`; the old password is kept unless
a non-empty password value is supplied, in which case the new value
replaces it (an empty-string value is ignored); only index `idx` of
the directory changes. -/
theorem updateProfile_frame (s : AuthState) (upd : UserPartial) (cur : User) (idx : Nat)
    (hcur : s.currentUser = some cur)
    (hidx : s.users.findIdx? (fun u => u.id == cur.id) = some idx)
    (hsucc : (updateProfile s upd).1.success = true) :
    (updateProfile s upd).2.users = s.users.set idx (mergeUser cur upd) ∧
      (updateProfile s upd).2.currentUser = some (mergeUser cur upd) ∧
      (mergeUser cur upd).id = cur.id ∧
      (mergeUser cur upd).fechaRegistro = cur.fechaRegistro ∧
      (∀ p : String, upd.password = some p → p ≠ "" → (mergeUser cur upd).password = p) ∧
      ((upd.password = none ∨ upd.password = some "") →
        (mergeUser cur upd).password = cur.password) ∧
      ∀ j : Nat, j ≠ idx → (updateProfile s upd).2.users[j]? = s.users[j]? := by
  cases hb1 : (changedField upd.email cur.email &&
      s.users.any (fun u =>
        u.id != cur.id && jsToLower u.email == jsToLower (upd.email.getD ""))) with
  | true =>
    rw [updateProfile, hcur] at hsucc
    simp [hidx, hb1] at hsucc
  | false =>
    cases hb2 : (changedField upd.usuario cur.usuario &&
        s.users.any (fun u =>
          u.id != cur.id && jsToLower u.usuario == jsToLower (upd.usuario.getD ""))) with
    | true =>
      rw [updateProfile, hcur] at hsucc
      simp [hidx, hb1, hb2] at hsucc
    | false =>
      have hstep : updateProfile s upd =
          ({ success := true, message := "Perfil actualizado exitosamente" },
            { s with
                users := s.users.set idx (mergeUser cur upd),
                currentUser := some (mergeUser cur upd) }) := by
        rw [updateProfile, hcur]
        simp only [hidx, hb1, hb2, Bool.false_eq_true, if_false]
      refine ⟨by rw [hstep], by rw [hstep], rfl, rfl, fun p hp hne => ?_, fun hkeep => ?_,
        fun j hj => ?_⟩
      · simp [mergeUser, hp, jsTruthy, hne]
      · rcases hkeep with hnone | hempty
        · simp [mergeUser, hnone]
        · simp [mergeUser, hempty, jsTruthy]
      · rw [hstep]
        exact List.getElem?_set_ne (Ne.symm hj)

/-- Witness for C8 (amended): updating `demoUser` with the non-empty
password "Nueva123" succeeds, rewrites index 0 of the directory and
stores the new password. -/
theorem updateProfile_frame_witness :
    (updateProfile demoSession newPasswordUpdate).2.users =
        demoSession.users.set 0 (mergeUser demoUser newPasswordUpdate) ∧
      (mergeUser demoUser newPasswordUpdate).password = "Nueva123" :=
  ⟨(updateProfile_frame demoSession newPasswordUpdate demoUser 0 rfl (by decide)
      (by decide)).1,
    (updateProfile_frame demoSession newPasswordUpdate demoUser 0 rfl (by decide)
        (by decide)).2.2.2.2.1 "Nueva123" rfl (by decide)⟩

end Auth

/-! ### Order claims -/

namespace OrderSvc

/-- C9 counterexample: in the concrete `demoCreate` run, the persisted
copy fetched back through `getOrderByNumber` is not deeply equal to the
returned Order: the returned Order holds the `Date` object while the
fetched copy holds its ISO-string JSON serialization in `date`. -/
theorem order_fetched_not_deep_equal :
    getOrderByNumber demoStore demoOrder.orderNumber ≠ some demoOrder ∧
      demoOrder.date = JsDate.obj 1765497600123 ∧
      (getOrderByNumber demoStore demoOrder.orderNumber).map (fun o => o.date) =
        some (JsDate.iso "2025-12-12T00:00:00.123Z") := by
  decide

/-- C9 (amended): `createOrder` returns an Order whose `orderNumber`
has the textual shape "WW-<year>-<6-digit-random>" (the random part is
the value the source draws in [100000, 999999]) and whose status is
"confirmed"; it persists the JSON-serialized copy keyed by that order
number and moves the last-order pointer to it; the copy fetched back
via `getOrderByNumber` equals the returned Order with the `date` Date
object replaced by its ISO-string serialization, and is deeply equal
to it on every other field. -/
theorem createOrder_persists (store : OrderStore) (uuid : String)
    (nowMs year random : Int) (items : List CartItem)
    (subtotal tax shipping total : Int) (o : Order) (st : OrderStore)
    (hlo : 100000 ≤ random) (hhi : random ≤ 999999)
    (hrun : createOrder store uuid nowMs year random items subtotal tax shipping total =
      (o, st)) :
    (∃ r : Int, 100000 ≤ r ∧ r ≤ 999999 ∧
        o.orderNumber = "WW-" ++ toString year ++ "-" ++ toString r) ∧
      o.status = "confirmed" ∧
      o.date = JsDate.obj nowMs ∧
      st.lastOrder = some o.orderNumber ∧
      getOrderByNumber st o.orderNumber = some (jsonRoundTripOrder o) ∧
      jsonRoundTripOrder o = { o with date := JsDate.iso (toISOString nowMs) } ∧
      getLastOrder st = some (jsonRoundTripOrder o) := by
  have ho : o = (createOrder store uuid nowMs year random items subtotal tax shipping total).1 := by
    rw [hrun]
  have hst : st =
      (createOrder store uuid nowMs year random items subtotal tax shipping total).2 := by
    rw [hrun]
  subst ho
  subst hst
  refine ⟨⟨random, hlo, hhi, rfl⟩, rfl, rfl, rfl, ?_, rfl, ?_⟩
  · simp only [createOrder, getOrderByNumber]
    rw [List.find?_cons_of_pos _ (by simp)]
    rfl
  · simp only [createOrder, getLastOrder, getOrderByNumber]
    rw [List.find?_cons_of_pos _ (by simp)]
    rfl

/-- Witness for C9 (amended) at the concrete `demoCreate` run. -/
theorem createOrder_persists_witness :
    (∃ r : Int, 100000 ≤ r ∧ r ≤ 999999 ∧
        demoOrder.orderNumber = "WW-" ++ toString (2025 : Int) ++ "-" ++ toString r) ∧
      demoOrder.status = "confirmed" ∧
      demoOrder.date = JsDate.obj 1765497600123 ∧
      demoStore.lastOrder = some demoOrder.orderNumber ∧
      getOrderByNumber demoStore demoOrder.orderNumber = some (jsonRoundTripOrder demoOrder) ∧
      jsonRoundTripOrder demoOrder =
        { demoOrder with date := JsDate.iso (toISOString 1765497600123) } ∧
      getLastOrder demoStore = some (jsonRoundTripOrder demoOrder) :=
  createOrder_persists emptyStore "f47ac10b-58cc-4372-a567-0e02b2c3d479" 1765497600123 2025
    123456 [{ product := demoProduct 1 10000, quantity := 2 }] 20000 0 5000 25000
    demoOrder demoStore (by decide) (by decide) rfl

end OrderSvc

end Storefront
